import Mathlib

/-!
Verification development for the stellar-payments payout pipeline
(`src/lib/payments.js`).

The driver (`Payments`) and the client (`Client.createNewPayment`,
`validateAmount`) are translated directly from the source.  The injected
components (`signer`, `submitter`, `database`, `network`) are not part of
the sources; where a claim depends on their behaviour they are modelled
from the specification, each such definition carrying a doc comment that
says so.

JavaScript truthiness matters in several places (`!max_transactions`,
`!sequence`, `!amount`, `!amount.value`): a numeric `0` is falsy.  The
embedding keeps those checks exactly as the source writes them.
-/

set_option autoImplicit false

namespace StellarPayments

/-- Amount argument of `createNewPayment`: a JS number, a string, `null`, or an
amount object `{value, currency?, issuer?}` (the tuple form of the spec). -/
inductive AmountVal where
  | null
  | num (n : Int)
  | str (s : String)
  | obj (value : Option Int) (currency : Option String) (issuer : Option String)
  deriving DecidableEq

/-- Lifecycle state of a payment row (spec section 3). -/
inductive TxState where
  | pending
  | signed
  | submitted
  | confirmed
  | error (kind : String) (fatal : Bool)
  | aborted
  deriving DecidableEq

/-- One payment row of the Store. -/
structure Txn where
  id : Nat
  state : TxState
  sequence : Option Nat := none
  signedArtifact : Option String := none
  destination : String := ""
  amount : AmountVal := .num 1
  memo : Option String := none
  deriving DecidableEq

abbrev Store := List Txn

/-- A JS error value as the driver observes it.  `isNetwork` models
`instanceof Network.errors.NetworkError`, `isResign` models
`instanceof Submitter.errors.ResignTransactionError`; `message` models the
convention that a `ResignTransactionError` carries the offending transaction
in its `message` field; `transaction` models the optional `err.transaction`
property read by `handleFatalError` and `checkFatalError`. -/
structure JsError where
  name : String
  isNetwork : Bool
  isResign : Bool
  message : Option Txn := none
  transaction : Option Txn := none
  deriving DecidableEq

/-- The ledger as seen through `network.getAccountInfo`:
`result.result.account_data.Sequence` for the funding account. -/
structure Network where
  accountSequence : Nat
  deriving DecidableEq

/-- The state an injected signer or submitter can reach: the database rows,
the network, and the signer's sequence cursor.  The driver-private fields
(`fatalError`, `signingAndSubmitting`) are not part of it. -/
structure SubWorld where
  store : Store
  network : Network
  signerSeq : Option Nat
  deriving DecidableEq

/-- Full driver state: component-reachable state plus the `fatalError` slot
and the `signingAndSubmitting` re-entrancy flag. -/
structure World where
  sub : SubWorld
  fatalError : Option JsError
  busy : Bool
  deriving DecidableEq

/-- JS falsiness of an optional number: absent (`null`/`undefined`) or `0`. -/
def jsFalsyNat : Option Nat → Bool
  | none => true
  | some n => n == 0

/-- JS falsiness of the optional `max_transactions` argument. -/
def jsFalsyInt : Option Int → Bool
  | none => true
  | some m => m == 0

/-- Modelled from the spec: `listSubmittedUnconfirmed()` of the Store
(`database.getSubmittedUnconfirmedTransactions` is not among the sources) —
rows in state Submitted. -/
def getSubmittedUnconfirmedTransactions (store : Store) : List Txn :=
  store.filter (fun t => t.state = .submitted)

/-- Modelled from the spec: `highestSequence()` of the Store
(`database.getHighestSequenceNumberFromTransactions` is not among the
sources) — max `sequence` across rows that hold one; per the spec a row
holds a sequence iff its state is at least Signed, and demotion clears it. -/
def getHighestSequenceNumberFromTransactions (store : Store) : Option Nat :=
  (store.filterMap (fun t => t.sequence)).max?

/-- Modelled from the spec: `clearSignedFrom(id)` of the Store
(`database.clearSignedTransactionsFromId` is not among the sources) —
atomically demotes every row with `id ≥ given` in state Signed or
Submitted-unconfirmed back to Pending, clearing artifact and sequence. -/
def clearSignedTransactionsFromId (store : Store) (fromId : Nat) : Store :=
  store.map (fun t =>
    if fromId ≤ t.id ∧ (t.state = .signed ∨ t.state = .submitted) then
      { t with state := .pending, sequence := none, signedArtifact := none }
    else t)

/-- Modelled from the spec: `markError(id, kind, fatal)` of the Store
(`database.markTransactionError` is not among the sources) — moves the row
with the transaction's id to `Error(kind, fatal)`. -/
def markTransactionError (store : Store) (txn : Txn) (kind : String)
    (fatal : Bool) : Store :=
  store.map (fun t =>
    if t.id = txn.id then { t with state := .error kind fatal } else t)

/-- Modelled from the spec: `isAborted(id)` of the Store (`database.isAborted`
is not among the sources) — true iff the row's state is Aborted. -/
def isAborted (store : Store) (txn : Txn) : Bool :=
  store.any (fun t => t.id = txn.id && t.state = .aborted)

/-- Modelled from the spec: `insertPending(dest, amount, memo)` of the Store
(`database.insertNewTransaction` is not among the sources) — appends a fresh
Pending row; the monotonic `id` assigned on insert is passed explicitly. -/
def insertNewTransaction (store : Store) (nextId : Nat) (address : String)
    (amount : AmountVal) (memo : Option String) : Store :=
  store ++ [{ id := nextId, state := .pending, destination := address,
              amount := amount, memo := memo }]

/-- `Payments.prototype._getLatestSequenceNumberFromNetwork`: reads
`account_data.Sequence` from `network.getAccountInfo(stellarAddress)`. -/
def getLatestSequenceNumberFromNetwork (s : SubWorld) : Nat :=
  s.network.accountSequence

/-- `Payments.prototype.initSequenceNumber`: takes the highest sequence from
the database; if that is falsy (`!sequence`), asks the network for the
current sequence (not incremented), otherwise uses `sequence + 1`; the
result is stored in the signer via `setSequenceNumber`. -/
def initSequenceNumber (s : SubWorld) : SubWorld :=
  let sequence := getHighestSequenceNumberFromTransactions s.store
  let fresh :=
    if jsFalsyNat sequence then getLatestSequenceNumberFromNetwork s
    else sequence.getD 0 + 1
  { s with signerSeq := some fresh }

/-- `Payments.prototype._ensureSequenceNumber`: reads the signer's cursor and
runs `initSequenceNumber` when it is falsy (`!sequence`). -/
def ensureSequenceNumber (s : SubWorld) : SubWorld :=
  if jsFalsyNat s.signerSeq then initSequenceNumber s else s

/-- `Payments.prototype.calculateSigningLimit`:
`max_transactions - |getSubmittedUnconfirmedTransactions()|`. -/
def calculateSigningLimit (s : SubWorld) (maxTransactions : Int) : Int :=
  maxTransactions - (getSubmittedUnconfirmedTransactions s.store).length

/-- `Payments.prototype._handleResignError`: clears signed transactions from
`transaction.id + 1`, then fetches the latest network sequence and stores it
in the signer. -/
def handleResignError (s : SubWorld) (transaction : Txn) : SubWorld :=
  let cleared := clearSignedTransactionsFromId s.store (transaction.id + 1)
  let s1 := { s with store := cleared }
  { s1 with signerSeq := some (getLatestSequenceNumberFromNetwork s1) }

/-- Insertion step for sorting rows by ascending id. -/
def insertById (t : Txn) : List Txn → List Txn
  | [] => [t]
  | x :: xs => if t.id ≤ x.id then t :: x :: xs else x :: insertById t xs

/-- Sort rows by ascending id (the order of every Store listing query). -/
def sortById (l : List Txn) : List Txn :=
  l.foldr insertById []

/-- Modelled from the spec: `listUnsigned(limit)` of the Store — the `limit`
lowest-id Pending rows, ordered by id ascending. -/
def listUnsigned (store : Store) (limit : Nat) : List Txn :=
  (sortById (store.filter (fun t => t.state = .pending))).take limit

/-- Stamp the rows with the listed ids as Signed with consecutive sequence
numbers starting at `seq`, the artifact being an opaque blob. -/
def signRows (store : Store) (ids : List Nat) (seq : Nat) : Store :=
  match ids with
  | [] => store
  | i :: rest =>
      signRows
        (store.map (fun t =>
          if t.id = i then
            { t with state := .signed, sequence := some seq,
                     signedArtifact := some (toString seq) }
          else t))
        rest (seq + 1)

/-- Modelled from the spec: `Signer.signTransactions(limit)` (the signer
component `src/lib/signer.js` is not among the sources) — if `limit ≤ 0`,
no-op; otherwise read up to `limit` unsigned rows in id-ascending order and
stamp each with the next cursor value, incrementing the cursor per row. -/
def signerSignTransactions (s : SubWorld) (limit : Int) :
    SubWorld × Except JsError Unit :=
  if limit ≤ 0 then (s, .ok ())
  else
    match s.signerSeq with
    | none => (s, .ok ())
    | some seq0 =>
        let ids := (listUnsigned s.store limit.toNat).map (fun t => t.id)
        ({ s with store := signRows s.store ids seq0,
                  signerSeq := some (seq0 + ids.length) }, .ok ())

/-- Submission outcome classification of the spec (section 4.2). -/
inductive SubmitOutcome where
  | accepted
  | transientNetwork
  | resign
  | permanentReject (kind : String)
  deriving DecidableEq

/-- Demote a row back to Pending, clearing sequence and artifact. -/
def demoteTxn (t : Txn) : Txn :=
  { t with state := .pending, sequence := none, signedArtifact := none }

/-- Modelled from the spec: full resign recovery for outcome `o` on offending
row `r`.  The part acting on `r` itself lives in the submitter
(`src/lib/submitter.js` is not among the sources): on a Resign outcome `r`
is demoted too; on a PermanentReject `r` is left in `Error(kind, false)`.
The clearing of strictly-later rows and the cursor refresh are
`_handleResignError` of the source. -/
def resignRecovery (s : SubWorld) (o : SubmitOutcome) (r : Txn) : SubWorld :=
  let s1 : SubWorld :=
    match o with
    | .resign =>
        { s with store := s.store.map (fun t =>
            if t.id = r.id then demoteTxn t else t) }
    | .permanentReject kind =>
        { s with store := markTransactionError s.store r kind false }
    | _ => s
  handleResignError s1 r

/-- The signer and submitter as the driver sees them; both are injectable
through the constructor (`config.signer`, `config.submitter`), so the driver
theorems quantify over them. -/
structure Components where
  sign : SubWorld → Int → SubWorld × Except JsError Unit
  submit : SubWorld → SubWorld × Except JsError Unit

/-- Result of one `processPayments` call: the final state, the settled value
of the returned promise, and the arguments of any `_handleResignError` call
that was started without being chained into the tick's promise. -/
structure TickResult where
  world : World
  outcome : Except JsError Unit
  detached : List (Option Txn)

/-- `Payments.prototype.checkFatalError`: nothing to do when the slot is
empty; otherwise, when the stored error carries a transaction that the
database reports as aborted, clear the slot and run `_handleResignError`
(chained), else reject with the stored error. -/
def checkFatalError (w : World) : World × Except JsError Unit :=
  match w.fatalError with
  | none => (w, .ok ())
  | some e =>
      match e.transaction with
      | none => (w, .error e)
      | some t =>
          if isAborted w.sub.store t then
            ({ w with fatalError := none, sub := handleResignError w.sub t },
             .ok ())
          else (w, .error e)

/-- `Payments.prototype.handleFatalError`: record the error in the
`fatalError` slot, mark its transaction (when present) as a fatal error in
the database, and reject with the error. -/
def handleFatalError (w : World) (e : JsError) : World × Except JsError Unit :=
  let w1 := { w with fatalError := some e }
  match e.transaction with
  | some t =>
      ({ w1 with sub := { w1.sub with
          store := markTransactionError w1.sub.store t e.name true } },
       .error e)
  | none => (w1, .error e)

/-- The two catch handlers at the end of the `processPayments` chain, in
order: `.catch(Network.errors.NetworkError, log)` swallows network errors;
`.catch(this.handleFatalError)` promotes everything else. -/
def applyCatches (w : World) (r : Except JsError Unit) :
    World × Except JsError Unit :=
  match r with
  | .ok _ => (w, .ok ())
  | .error e => if e.isNetwork then (w, .ok ()) else handleFatalError w e

/-- `Payments.prototype.submitTransactions`: call the submitter and catch
`ResignTransactionError`; the catch handler reads the transaction from
`err.message` and calls `_handleResignError` WITHOUT returning the promise,
so the recovery is detached from the tick's chain and the wrapper resolves
successfully. -/
def submitTransactions (c : Components) (w : World) :
    World × Except JsError Unit × List (Option Txn) :=
  match c.submit w.sub with
  | (s, .ok _) => ({ w with sub := s }, .ok (), [])
  | (s, .error e) =>
      if e.isResign then ({ w with sub := s }, .ok (), [e.message])
      else ({ w with sub := s }, .error e, [])

/-- The body of the `processPayments` promise chain after the guard is
taken: fatal-error check, sequence init, signing-limit calculation, signing,
submission, each stage short-circuiting to the catch handlers on error. -/
def runTickBody (c : Components) (w : World) (maxTransactions : Int) :
    World × Except JsError Unit × List (Option Txn) :=
  match checkFatalError w with
  | (w1, .error e) => (w1, .error e, [])
  | (w1, .ok _) =>
      let w2 := { w1 with sub := ensureSequenceNumber w1.sub }
      let limit := calculateSigningLimit w2.sub maxTransactions
      match c.sign w2.sub limit with
      | (s3, .error e) => ({ w2 with sub := s3 }, .error e, [])
      | (s3, .ok _) => submitTransactions c { w2 with sub := s3 }

/-- `Payments.prototype.processPayments`: default the falsy
`max_transactions` argument to 10, return a resolved promise immediately
when `signingAndSubmitting` is set, otherwise take the guard, run the chain
with its two catch handlers, and release the guard in `.finally`. -/
def processPayments (c : Components) (w : World)
    (maxTransactions : Option Int) : TickResult :=
  let m : Int := if jsFalsyInt maxTransactions then 10
                 else maxTransactions.getD 10
  if w.busy then ⟨w, .ok (), []⟩
  else
    match runTickBody c { w with busy := true } m with
    | (w1, r1, d) =>
        match applyCatches w1 r1 with
        | (w2, r2) => ⟨{ w2 with busy := false }, r2, d⟩

/-- A signer and submitter that do nothing and succeed. -/
def cNoop : Components :=
  ⟨fun s _ => (s, .ok ()), fun s => (s, .ok ())⟩

/-- A signer that applies `f` to record the limit it received; the submitter
succeeds without effect. -/
def cSpy (f : SubWorld → Int → SubWorld) : Components :=
  ⟨fun s l => (f s l, .ok ()), fun s => (s, .ok ())⟩

/-- A submitter that rejects with `e`; the signer is a no-op. -/
def cRaiseSubmit (e : JsError) : Components :=
  ⟨fun s _ => (s, .ok ()), fun s => (s, .error e)⟩

/-- A signer that rejects with `e`; the submitter is a no-op. -/
def cRaiseSign (e : JsError) : Components :=
  ⟨fun s _ => (s, .error e), fun s => (s, .ok ())⟩

/-- The spec-modelled signer together with a no-op submitter. -/
def cSignerOnly : Components :=
  ⟨signerSignTransactions, fun s => (s, .ok ())⟩

/-- `validateAmount` of the client (`src/lib/payments.js`, second part):
`!amount` rejects null, `0` and the empty string; a non-number non-object
rejects; an amount object needs a truthy numeric `value`, a string
`currency` when the `currency` field is truthy (always the case in this
model, where the field is absent or a string), and a valid issuer address
when the `issuer` field is truthy. -/
def validateAmount (isValidAddress : String → Bool) (amount : AmountVal) :
    Except String Unit :=
  if amount = .null ∨ amount = .num 0 ∨ amount = .str "" then
    .error "Amount cannot be null"
  else
    match amount with
    | .num _ => .ok ()
    | .null => .error "Amount cannot be null"
    | .str _ => .error "Amount must be either a number or an amount object."
    | .obj value _currency issuer =>
        if value = none ∨ value = some 0 then
          .error "Amount object must have an int for property 'value.'"
        else
          match issuer with
          | some iss =>
              if iss ≠ "" ∧ ¬ isValidAddress iss then
                .error "Issuer must be a valid stellar address"
              else .ok ()
          | none => .ok ()

/-- `Client.prototype.createNewPayment`: reject an invalid destination
address, validate the amount, then insert a new Pending row. -/
def createNewPayment (isValidAddress : String → Bool) (store : Store)
    (nextId : Nat) (address : String) (amount : AmountVal)
    (memo : Option String) : Except String Store :=
  if ¬ isValidAddress address then
    .error "Address must be a valid Stellar address"
  else
    match validateAmount isValidAddress amount with
    | .error e => .error e
    | .ok _ => .ok (insertNewTransaction store nextId address amount memo)

/-- The inputs `createNewPayment` accepts, written out following the spec's
words as amended: valid destination, and an amount that is a nonzero
numeric scalar or an object with a truthy numeric value whose issuer, when
truthy, is a valid address. -/
def validPaymentInput (isValidAddress : String → Bool) (address : String)
    (amount : AmountVal) : Bool :=
  isValidAddress address &&
    (match amount with
     | .num n => n != 0
     | .obj value _currency issuer =>
         (match value with | some n => n != 0 | none => false) &&
         (match issuer with
          | some iss => iss == "" || isValidAddress iss
          | none => true)
     | _ => false)

/-- Whether an `Except` result is a success. -/
def exceptOk {α : Type} (r : Except String α) : Bool :=
  match r with
  | .ok _ => true
  | .error _ => false

/-! Sample fixtures used by the witness theorems. -/

def txnA : Txn := { id := 1, state := .confirmed, sequence := some 100 }

def txnB : Txn :=
  { id := 2, state := .signed, sequence := some 101,
    signedArtifact := some "101" }

def txnC : Txn :=
  { id := 3, state := .submitted, sequence := some 102,
    signedArtifact := some "102" }

def storeEx : Store := [txnA, txnB, txnC]

def subEx : SubWorld := { store := storeEx, network := ⟨42⟩, signerSeq := some 103 }

def wIdle : World := { sub := subEx, fatalError := none, busy := false }

def wBusy : World := { sub := subEx, fatalError := none, busy := true }

/-! Helper lemmas shared by the claim theorems. -/

theorem initSequenceNumber_store (s : SubWorld) :
    (initSequenceNumber s).store = s.store := rfl

theorem ensureSequenceNumber_store (s : SubWorld) :
    (ensureSequenceNumber s).store = s.store := by
  unfold ensureSequenceNumber
  split <;> rfl

theorem ensureSequenceNumber_network (s : SubWorld) :
    (ensureSequenceNumber s).network = s.network := by
  unfold ensureSequenceNumber
  split <;> rfl

/-- On an idle driver with an empty fatal slot, a tick hands the injected
signer exactly the computed signing limit and the sequence-ensured state. -/
theorem processPayments_spy (f : SubWorld → Int → SubWorld) (w : World)
    (m : Option Int) (hb : w.busy = false) (hf : w.fatalError = none) :
    (processPayments (cSpy f) w m).world.sub
      = f (ensureSequenceNumber w.sub)
          ((if jsFalsyInt m then 10 else m.getD 10)
            - (getSubmittedUnconfirmedTransactions w.sub.store).length) := by
  simp [processPayments, runTickBody, checkFatalError, hf, hb, cSpy,
        submitTransactions, applyCatches, calculateSigningLimit,
        ensureSequenceNumber_store]

/-- C2: while a tick is in progress every further `processPayments` call
returns a resolved promise at once, changing nothing; and a tick started on
an idle driver always ends with the re-entrancy guard released, on every
exit path. -/
theorem processPayments_reentrancy_guard (c : Components) (w : World)
    (m : Option Int) :
    (w.busy = true → processPayments c w m = ⟨w, .ok (), []⟩)
    ∧ (w.busy = false → (processPayments c w m).world.busy = false) := by
  constructor
  · intro hb
    simp [processPayments, hb]
  · intro hb
    simp only [processPayments, hb, Bool.false_eq_true, if_false]

theorem processPayments_reentrancy_guard_witness :
    (processPayments cNoop wBusy none = ⟨wBusy, .ok (), []⟩)
    ∧ ((processPayments cNoop wIdle none).world.busy = false) :=
  ⟨(processPayments_reentrancy_guard cNoop wBusy none).1 rfl,
   (processPayments_reentrancy_guard cNoop wIdle none).2 rfl⟩

/-- C10: a falsy `max_transactions` argument (absent/null is `none`, or
`0`) makes the tick run exactly as with the default limit 10; in
particular passing `0` hands the signer the limit `10 - |submitted|`,
not `0`. -/
theorem processPayments_falsy_max_defaults (c : Components) (w : World)
    (f : SubWorld → Int → SubWorld)
    (hb : w.busy = false) (hf : w.fatalError = none) :
    processPayments c w none = processPayments c w (some 10)
    ∧ processPayments c w (some 0) = processPayments c w (some 10)
    ∧ (processPayments (cSpy f) w (some 0)).world.sub
        = f (ensureSequenceNumber w.sub)
            (10 - (getSubmittedUnconfirmedTransactions w.sub.store).length) := by
  refine ⟨rfl, rfl, ?_⟩
  simpa using processPayments_spy f w (some 0) hb hf

theorem processPayments_falsy_max_defaults_witness :
    (processPayments cNoop wIdle none = processPayments cNoop wIdle (some 10))
    ∧ (processPayments cNoop wIdle (some 0)
        = processPayments cNoop wIdle (some 10))
    ∧ (processPayments (cSpy (fun s _ => s)) wIdle (some 0)).world.sub
        = (fun (s : SubWorld) (_ : Int) => s) (ensureSequenceNumber wIdle.sub)
            (10 - (getSubmittedUnconfirmedTransactions wIdle.sub.store).length) :=
  processPayments_falsy_max_defaults cNoop wIdle (fun s _ => s) rfl rfl

/-- C5: on a tick with a nonzero explicit cap `m`, the signing limit handed
to the signer is `m` minus the number of submitted-unconfirmed rows, and
when that quota is not positive the (spec-modelled) signer signs nothing:
the store is unchanged. -/
theorem tick_signing_limit (w : World) (m : Int)
    (hb : w.busy = false) (hf : w.fatalError = none) (hm : m ≠ 0) :
    (∀ f : SubWorld → Int → SubWorld,
      (processPayments (cSpy f) w (some m)).world.sub
        = f (ensureSequenceNumber w.sub)
            (m - (getSubmittedUnconfirmedTransactions w.sub.store).length))
    ∧ (m - (getSubmittedUnconfirmedTransactions w.sub.store).length ≤ 0 →
        (processPayments cSignerOnly w (some m)).world.sub.store
          = w.sub.store) := by
  have hfalsy : jsFalsyInt (some m) = false := by
    simp [jsFalsyInt, hm]
  constructor
  · intro f
    have h := processPayments_spy f w (some m) hb hf
    rw [hfalsy] at h
    simpa using h
  · intro hq
    simp only [processPayments, runTickBody, checkFatalError, hf, hb,
      Bool.false_eq_true, if_false, hfalsy, Option.getD_some,
      cSignerOnly, submitTransactions, applyCatches,
      calculateSigningLimit, ensureSequenceNumber_store]
    rw [signerSignTransactions]
    simp only [ensureSequenceNumber_store w.sub] at hq ⊢
    rw [if_pos hq]
    simp [ensureSequenceNumber_store]

theorem tick_signing_limit_witness :
    ((processPayments (cSpy (fun s _ => s)) wIdle (some 1)).world.sub
      = (fun (s : SubWorld) (_ : Int) => s) (ensureSequenceNumber wIdle.sub)
          (1 - (getSubmittedUnconfirmedTransactions wIdle.sub.store).length))
    ∧ ((1 : Int) - (getSubmittedUnconfirmedTransactions wIdle.sub.store).length ≤ 0 →
        (processPayments cSignerOnly wIdle (some 1)).world.sub.store
          = wIdle.sub.store) :=
  ⟨(tick_signing_limit wIdle 1 rfl rfl (by decide)).1 (fun s _ => s),
   (tick_signing_limit wIdle 1 rfl rfl (by decide)).2⟩

/-- A driver state whose signer cursor holds the number 0. -/
def sCursorZero : SubWorld := { store := [], network := ⟨7⟩, signerSeq := some 0 }

/-- A cold signer over a store whose rows carry sequences up to 102. -/
def sColdDb : SubWorld := { store := storeEx, network := ⟨42⟩, signerSeq := none }

/-- A cold signer over an empty store. -/
def sColdEmpty : SubWorld := { store := [], network := ⟨42⟩, signerSeq := none }

/-- C3 counterexample: with the cursor set to the value 0, sequence
initialization still runs (`!sequence` is true for 0 in JS) and overwrites
the cursor from the ledger — the claim's "when the cursor is already set,
no initialization occurs" fails. -/
theorem ensureSequenceNumber_zero_cursor_reinitializes :
    sCursorZero.signerSeq = some 0
    ∧ (ensureSequenceNumber sCursorZero).signerSeq = some 7 := by
  decide

/-- C3 amended: when the cursor holds a nonzero value no initialization
occurs; when the cursor is empty or 0, initialization uses the store's
highest sequence plus one whenever that highest value exists and is
nonzero — independently of the ledger — and otherwise the ledger's next
sequence, unincremented. -/
theorem sequence_init_amended (s : SubWorld) :
    (∀ n, s.signerSeq = some n → n ≠ 0 → ensureSequenceNumber s = s)
    ∧ (jsFalsyNat s.signerSeq = true →
        (∀ h, getHighestSequenceNumberFromTransactions s.store = some h →
          h ≠ 0 → ∀ net : Network,
            (ensureSequenceNumber { s with network := net }).signerSeq
              = some (h + 1))
        ∧ (jsFalsyNat (getHighestSequenceNumberFromTransactions s.store) = true →
            (ensureSequenceNumber s).signerSeq
              = some s.network.accountSequence)) := by
  refine ⟨?_, fun hcur => ⟨?_, ?_⟩⟩
  · intro n hn hnz
    simp [ensureSequenceNumber, jsFalsyNat, hn, hnz]
  · intro h hh hz net
    have hcur' : jsFalsyNat ({ s with network := net } : SubWorld).signerSeq
        = true := hcur
    rw [ensureSequenceNumber, if_pos hcur']
    simp [initSequenceNumber, jsFalsyNat, hh, hz,
          getLatestSequenceNumberFromNetwork]
  · intro hhf
    simp only [ensureSequenceNumber, hcur, if_true]
    simp [initSequenceNumber, hhf, getLatestSequenceNumberFromNetwork]

theorem sequence_init_amended_witness :
    (ensureSequenceNumber subEx = subEx)
    ∧ ((ensureSequenceNumber { sColdDb with network := ⟨7⟩ }).signerSeq
        = some 103)
    ∧ ((ensureSequenceNumber sColdEmpty).signerSeq = some 42) :=
  ⟨(sequence_init_amended subEx).1 103 rfl (by decide),
   ((sequence_init_amended sColdDb).2 rfl).1 102 (by decide) (by decide) ⟨7⟩,
   ((sequence_init_amended sColdEmpty).2 rfl).2 rfl⟩

/-- C8: a network error raised by the signing phase or by the submission
phase is logged and swallowed: the tick's promise resolves, the fatal slot
stays empty, and the store is untouched (no row is marked Error), so the
work is retried on a later tick. -/
theorem tick_network_error_swallowed (w : World) (m : Option Int)
    (e : JsError) (hb : w.busy = false) (hf : w.fatalError = none)
    (hn : e.isNetwork = true) (hr : e.isResign = false) :
    ((processPayments (cRaiseSubmit e) w m).outcome = .ok ()
      ∧ (processPayments (cRaiseSubmit e) w m).world.fatalError = none
      ∧ (processPayments (cRaiseSubmit e) w m).world.sub.store = w.sub.store)
    ∧ ((processPayments (cRaiseSign e) w m).outcome = .ok ()
      ∧ (processPayments (cRaiseSign e) w m).world.fatalError = none
      ∧ (processPayments (cRaiseSign e) w m).world.sub.store = w.sub.store) := by
  refine ⟨⟨?_, ?_, ?_⟩, ⟨?_, ?_, ?_⟩⟩ <;>
    simp [processPayments, runTickBody, checkFatalError, hf, hb,
          cRaiseSubmit, cRaiseSign, submitTransactions, applyCatches,
          hn, hr, ensureSequenceNumber_store]

/-- A sample network error. -/
def netErrEx : JsError :=
  { name := "NetworkError", isNetwork := true, isResign := false }

/-- A sample resign signal: a `ResignTransactionError` carrying the
offending transaction in its `message` field. -/
def resignErrEx : JsError :=
  { name := "ResignTransactionError", isNetwork := false, isResign := true,
    message := some txnB }

/-- A sample unclassified error carrying a transaction. -/
def fatalErrEx : JsError :=
  { name := "UnknownError", isNetwork := false, isResign := false,
    transaction := some txnB }

/-- A sample unclassified error without a transaction. -/
def fatalErrBare : JsError :=
  { name := "UnknownError", isNetwork := false, isResign := false }

theorem tick_network_error_swallowed_witness :
    ((processPayments (cRaiseSubmit netErrEx) wIdle none).outcome = .ok ()
      ∧ (processPayments (cRaiseSubmit netErrEx) wIdle none).world.fatalError
          = none
      ∧ (processPayments (cRaiseSubmit netErrEx) wIdle none).world.sub.store
          = wIdle.sub.store)
    ∧ ((processPayments (cRaiseSign netErrEx) wIdle none).outcome = .ok ()
      ∧ (processPayments (cRaiseSign netErrEx) wIdle none).world.fatalError
          = none
      ∧ (processPayments (cRaiseSign netErrEx) wIdle none).world.sub.store
          = wIdle.sub.store) :=
  tick_network_error_swallowed wIdle none netErrEx rfl rfl rfl rfl

/-- C7: when the submitter rejects with a `ResignTransactionError`, the tick
resolves successfully and is never promoted to fatal; the offending
transaction is read from the error's `message` field and the recovery runs
as a detached promise: the tick finishes with the guard released while the
store demotion has not been applied; the detached recovery, run later,
performs exactly the `clearSignedTransactionsFromId` demotion. -/
theorem tick_resign_error_detached (w : World) (m : Option Int) (e : JsError)
    (hb : w.busy = false) (hf : w.fatalError = none)
    (hr : e.isResign = true) :
    (processPayments (cRaiseSubmit e) w m).outcome = .ok ()
    ∧ (processPayments (cRaiseSubmit e) w m).world.fatalError = none
    ∧ (processPayments (cRaiseSubmit e) w m).world.busy = false
    ∧ (processPayments (cRaiseSubmit e) w m).detached = [e.message]
    ∧ (processPayments (cRaiseSubmit e) w m).world.sub.store = w.sub.store
    ∧ (∀ t, e.message = some t →
        (handleResignError (processPayments (cRaiseSubmit e) w m).world.sub
            t).store
          = clearSignedTransactionsFromId w.sub.store (t.id + 1)) := by
  refine ⟨?_, ?_, ?_, ?_, ?_, ?_⟩ <;>
    simp [processPayments, runTickBody, checkFatalError, hf, hb,
          cRaiseSubmit, submitTransactions, applyCatches, hr,
          handleResignError, ensureSequenceNumber_store]

theorem tick_resign_error_detached_witness :
    (processPayments (cRaiseSubmit resignErrEx) wIdle none).outcome = .ok ()
    ∧ (processPayments (cRaiseSubmit resignErrEx) wIdle none).world.fatalError
        = none
    ∧ (processPayments (cRaiseSubmit resignErrEx) wIdle none).world.busy
        = false
    ∧ (processPayments (cRaiseSubmit resignErrEx) wIdle none).detached
        = [resignErrEx.message]
    ∧ (processPayments (cRaiseSubmit resignErrEx) wIdle none).world.sub.store
        = wIdle.sub.store
    ∧ (∀ t, resignErrEx.message = some t →
        (handleResignError
            (processPayments (cRaiseSubmit resignErrEx) wIdle none).world.sub
            t).store
          = clearSignedTransactionsFromId wIdle.sub.store (t.id + 1)) :=
  tick_resign_error_detached wIdle none resignErrEx rfl rfl rfl

/-- C6: an error that is neither a network error nor a resign signal is
promoted to fatal: the tick rejects with it, it is recorded in the
`fatalError` slot, the associated row (when the error carries one) is
marked as a fatal Error in the store, and any subsequent tick
short-circuits through the fatal-error check, rejecting again. -/
theorem tick_fatal_promotion (w : World) (m : Option Int) (e : JsError)
    (hb : w.busy = false) (hf : w.fatalError = none)
    (hn : e.isNetwork = false) (hr : e.isResign = false) :
    (processPayments (cRaiseSubmit e) w m).outcome = .error e
    ∧ (processPayments (cRaiseSubmit e) w m).world.fatalError = some e
    ∧ (e.transaction = none →
        (processPayments (cRaiseSubmit e) w m).world.sub.store = w.sub.store)
    ∧ (∀ t, e.transaction = some t →
        (processPayments (cRaiseSubmit e) w m).world.sub.store
          = markTransactionError w.sub.store t e.name true)
    ∧ (∀ c, e.transaction = none →
        (processPayments c (processPayments (cRaiseSubmit e) w m).world
            m).outcome = .error e) := by
  refine ⟨?_, ?_, ?_, ?_, ?_⟩
  · rcases he : e.transaction with _ | t <;>
      simp [processPayments, runTickBody, checkFatalError, hf, hb,
            cRaiseSubmit, submitTransactions, applyCatches, hn, hr,
            handleFatalError, he, ensureSequenceNumber_store]
  · rcases he : e.transaction with _ | t <;>
      simp [processPayments, runTickBody, checkFatalError, hf, hb,
            cRaiseSubmit, submitTransactions, applyCatches, hn, hr,
            handleFatalError, he, ensureSequenceNumber_store]
  · intro he
    simp [processPayments, runTickBody, checkFatalError, hf, hb,
          cRaiseSubmit, submitTransactions, applyCatches, hn, hr,
          handleFatalError, he, ensureSequenceNumber_store]
  · intro t he
    simp [processPayments, runTickBody, checkFatalError, hf, hb,
          cRaiseSubmit, submitTransactions, applyCatches, hn, hr,
          handleFatalError, he, ensureSequenceNumber_store]
  · intro c he
    simp [processPayments, runTickBody, checkFatalError, hf, hb,
          cRaiseSubmit, submitTransactions, applyCatches, hn, hr,
          handleFatalError, he, ensureSequenceNumber_store]

theorem tick_fatal_promotion_witness :
    (processPayments (cRaiseSubmit fatalErrEx) wIdle none).outcome
        = .error fatalErrEx
    ∧ (processPayments (cRaiseSubmit fatalErrEx) wIdle none).world.fatalError
        = some fatalErrEx
    ∧ (fatalErrEx.transaction = none →
        (processPayments (cRaiseSubmit fatalErrEx) wIdle none).world.sub.store
          = wIdle.sub.store)
    ∧ (∀ t, fatalErrEx.transaction = some t →
        (processPayments (cRaiseSubmit fatalErrEx) wIdle none).world.sub.store
          = markTransactionError wIdle.sub.store t fatalErrEx.name true)
    ∧ (∀ c, fatalErrEx.transaction = none →
        (processPayments c
            (processPayments (cRaiseSubmit fatalErrEx) wIdle none).world
            none).outcome = .error fatalErrEx) :=
  tick_fatal_promotion wIdle none fatalErrEx rfl rfl rfl rfl

/-- A marker error used to observe that the submission phase was reached. -/
def markerErr : JsError :=
  { name := "marker", isNetwork := false, isResign := false }

/-- C4: entering a tick with the fatal slot set.  When the stored error
carries a transaction that the store reports Aborted, the slot is cleared,
resign recovery demotes the strictly-later rows, and the tick proceeds (a
submitter injected to reject with a marker error is indeed reached).  When
the stored error carries no transaction, or its transaction is not Aborted,
the tick rejects with the stored error and never invokes the signer or the
submitter (the result is the same for every injected pair). -/
theorem tick_fatal_check (w : World) (m : Option Int) (e : JsError) (t : Txn)
    (hb : w.busy = false) (hf : w.fatalError = some e)
    (hn : e.isNetwork = false) :
    (e.transaction = some t → isAborted w.sub.store t = true →
      (processPayments cNoop w m).outcome = .ok ()
      ∧ (processPayments cNoop w m).world.fatalError = none
      ∧ (processPayments cNoop w m).world.sub.store
          = clearSignedTransactionsFromId w.sub.store (t.id + 1)
      ∧ (processPayments (cRaiseSubmit markerErr) w m).outcome
          = .error markerErr)
    ∧ (e.transaction = none →
        ∀ c, processPayments c w m = processPayments cNoop w m
          ∧ (processPayments cNoop w m).outcome = .error e
          ∧ (processPayments cNoop w m).world.sub = w.sub
          ∧ (processPayments cNoop w m).world.fatalError = some e)
    ∧ (e.transaction = some t → isAborted w.sub.store t = false →
        ∀ c, processPayments c w m = processPayments cNoop w m
          ∧ (processPayments cNoop w m).outcome = .error e
          ∧ (processPayments cNoop w m).world.sub.store
              = markTransactionError w.sub.store t e.name true
          ∧ (processPayments cNoop w m).world.fatalError = some e) := by
  refine ⟨fun he ha => ⟨?_, ?_, ?_, ?_⟩,
          fun he c => ⟨?_, ?_, ?_, ?_⟩,
          fun he ha c => ⟨?_, ?_, ?_, ?_⟩⟩ <;>
    simp [processPayments, runTickBody, checkFatalError, hf, hb, he, hn,
          cNoop, cRaiseSubmit, submitTransactions, applyCatches,
          handleFatalError, handleResignError, markerErr,
          ensureSequenceNumber_store, *]

/-- An aborted row, as left by an operator intervention. -/
def txnAb : Txn := { id := 2, state := .aborted, sequence := some 101 }

/-- A store in which row 2 is aborted and row 3 is still submitted. -/
def storeAb : Store := [txnA, txnAb, txnC]

/-- A fatal error attached to the aborted row. -/
def errAb : JsError :=
  { name := "UnknownError", isNetwork := false, isResign := false,
    transaction := some txnAb }

/-- A wedged driver: fatal slot set, its transaction aborted. -/
def wFatalAb : World :=
  { sub := { store := storeAb, network := ⟨42⟩, signerSeq := some 103 },
    fatalError := some errAb, busy := false }

/-- A wedged driver whose fatal error carries no transaction. -/
def wFatalBare : World :=
  { sub := subEx, fatalError := some fatalErrBare, busy := false }

theorem tick_fatal_check_witness :
    ((processPayments cNoop wFatalAb none).outcome = .ok ()
      ∧ (processPayments cNoop wFatalAb none).world.fatalError = none
      ∧ (processPayments cNoop wFatalAb none).world.sub.store
          = clearSignedTransactionsFromId wFatalAb.sub.store (txnAb.id + 1)
      ∧ (processPayments (cRaiseSubmit markerErr) wFatalAb none).outcome
          = .error markerErr)
    ∧ ((processPayments cNoop wFatalBare none).outcome = .error fatalErrBare
      ∧ (processPayments cNoop wFatalBare none).world.sub = wFatalBare.sub
      ∧ (processPayments cNoop wFatalBare none).world.fatalError
          = some fatalErrBare) :=
  ⟨(tick_fatal_check wFatalAb none errAb txnAb rfl rfl rfl).1 rfl (by decide),
   (((tick_fatal_check wFatalBare none fatalErrBare txnAb rfl rfl rfl).2.1
      rfl cNoop).2)⟩

/-- C1: resign recovery for outcome `o` on offending row `r` first demotes
every strictly-later signed or submitted-unconfirmed row, demotes `r`
itself exactly when the outcome was Resign (a PermanentReject on `r` alone
leaves `r` in a non-fatal Error), and sets the signer's cursor to the
ledger's freshly fetched next sequence for the funding account. -/
theorem resign_recovery_spec (s : SubWorld) (r : Txn) (k : String) :
    ((resignRecovery s .resign r).signerSeq = some s.network.accountSequence
      ∧ (resignRecovery s (.permanentReject k) r).signerSeq
          = some s.network.accountSequence)
    ∧ (∀ t ∈ s.store, r.id + 1 ≤ t.id →
        (t.state = .signed ∨ t.state = .submitted) →
        demoteTxn t ∈ (resignRecovery s .resign r).store
          ∧ demoteTxn t ∈ (resignRecovery s (.permanentReject k) r).store)
    ∧ (∀ t ∈ s.store, t.id = r.id →
        demoteTxn t ∈ (resignRecovery s .resign r).store)
    ∧ (∀ t ∈ s.store, t.id = r.id →
        { t with state := .error k false }
          ∈ (resignRecovery s (.permanentReject k) r).store) := by
  have hclear : ∀ (st : Store) (i : Nat),
      clearSignedTransactionsFromId st i
        = st.map (fun t =>
            if i ≤ t.id ∧ (t.state = .signed ∨ t.state = .submitted) then
              { t with state := .pending, sequence := none,
                       signedArtifact := none }
            else t) := fun _ _ => rfl
  refine ⟨⟨rfl, rfl⟩, ?_, ?_, ?_⟩
  · intro t ht hlt hst
    have hne : ¬ t.id = r.id := by omega
    constructor
    · simp only [resignRecovery, handleResignError, hclear, List.map_map]
      refine List.mem_map.2 ⟨t, ht, ?_⟩
      simp only [Function.comp_apply, if_neg hne]
      rw [if_pos ⟨hlt, hst⟩]
      rfl
    · simp only [resignRecovery, handleResignError, markTransactionError,
                 hclear, List.map_map]
      refine List.mem_map.2 ⟨t, ht, ?_⟩
      simp only [Function.comp_apply, if_neg hne]
      rw [if_pos ⟨hlt, hst⟩]
      rfl
  · intro t ht hid
    simp only [resignRecovery, handleResignError, hclear, List.map_map]
    refine List.mem_map.2 ⟨t, ht, ?_⟩
    simp only [Function.comp_apply, if_pos hid]
    rw [if_neg (by simp [demoteTxn, hid])]
  · intro t ht hid
    simp only [resignRecovery, handleResignError, markTransactionError,
               hclear, List.map_map]
    refine List.mem_map.2 ⟨t, ht, ?_⟩
    simp only [Function.comp_apply, if_pos hid]
    rw [if_neg (by simp [hid])]

theorem resign_recovery_spec_witness :
    ((resignRecovery subEx .resign txnB).signerSeq
        = some subEx.network.accountSequence
      ∧ (resignRecovery subEx (.permanentReject "tec") txnB).signerSeq
        = some subEx.network.accountSequence)
    ∧ (demoteTxn txnC ∈ (resignRecovery subEx .resign txnB).store
      ∧ demoteTxn txnC
          ∈ (resignRecovery subEx (.permanentReject "tec") txnB).store)
    ∧ demoteTxn txnB ∈ (resignRecovery subEx .resign txnB).store
    ∧ { txnB with state := .error "tec" false }
        ∈ (resignRecovery subEx (.permanentReject "tec") txnB).store :=
  have h := resign_recovery_spec subEx txnB "tec"
  ⟨h.1, h.2.1 txnC (by decide) (by decide) (by decide),
   h.2.2.1 txnB (by decide) rfl,
   h.2.2.2 txnB (by decide) rfl⟩

/-- Whenever `createNewPayment` succeeds, its value is the store with the
fresh Pending row appended. -/
theorem createNewPayment_ok_shape (isValid : String → Bool) (store : Store)
    (nextId : Nat) (address : String) (amount : AmountVal)
    (memo : Option String)
    (h : exceptOk (createNewPayment isValid store nextId address amount memo)
          = true) :
    createNewPayment isValid store nextId address amount memo
      = .ok (insertNewTransaction store nextId address amount memo) := by
  by_cases hv : isValid address = true
  · rcases hval : validateAmount isValid amount with u | e
    · simp [createNewPayment, hv, hval, exceptOk] at h
    · simp [createNewPayment, hv, hval]
  · simp [createNewPayment, hv, exceptOk] at h

/-- C9 amended: `createNewPayment` inserts a new Pending row exactly for a
valid destination address together with an amount that is a nonzero
numeric scalar (negative values included), or an amount object whose value
is a nonzero number and whose issuer, when present and nonempty, is a valid
address; every other input raises a validation error before anything is
inserted. -/
theorem createNewPayment_validation (isValid : String → Bool) (store : Store)
    (nextId : Nat) (address : String) (amount : AmountVal)
    (memo : Option String) :
    exceptOk (createNewPayment isValid store nextId address amount memo)
      = validPaymentInput isValid address amount
    ∧ (validPaymentInput isValid address amount = true →
        createNewPayment isValid store nextId address amount memo
          = .ok (insertNewTransaction store nextId address amount memo)) := by
  have h1 : exceptOk (createNewPayment isValid store nextId address amount
      memo) = validPaymentInput isValid address amount := by
    by_cases hv : isValid address = true
    · rcases amount with _ | n | sa | ⟨v, c, i⟩
      · simp [createNewPayment, validateAmount, validPaymentInput, hv,
              exceptOk]
      · by_cases hn : n = 0
        · subst hn
          simp [createNewPayment, validateAmount, validPaymentInput, hv,
                exceptOk]
        · simp [createNewPayment, validateAmount, validPaymentInput, hv, hn,
                exceptOk]
      · by_cases hs : sa = ""
        · subst hs
          simp [createNewPayment, validateAmount, validPaymentInput, hv,
                exceptOk]
        · simp [createNewPayment, validateAmount, validPaymentInput, hv, hs,
                exceptOk]
      · rcases v with _ | n
        · simp [createNewPayment, validateAmount, validPaymentInput, hv,
                exceptOk]
        · by_cases hn : n = 0
          · subst hn
            simp [createNewPayment, validateAmount, validPaymentInput, hv,
                  exceptOk]
          · rcases i with _ | iss
            · simp [createNewPayment, validateAmount, validPaymentInput, hv,
                    hn, exceptOk]
            · by_cases hiss : iss = ""
              · subst hiss
                simp [createNewPayment, validateAmount, validPaymentInput,
                      hv, hn, exceptOk]
              · by_cases hv2 : isValid iss = true
                · simp [createNewPayment, validateAmount, validPaymentInput,
                        hv, hn, hiss, hv2, exceptOk]
                · simp [createNewPayment, validateAmount, validPaymentInput,
                        hv, hn, hiss, hv2, exceptOk]
    · simp [createNewPayment, validPaymentInput, hv, exceptOk]
  exact ⟨h1, fun hvp =>
    createNewPayment_ok_shape isValid store nextId address amount memo
      (h1.trans hvp)⟩

theorem createNewPayment_validation_witness :
    (exceptOk (createNewPayment (fun s => s == "gDEST") [] 1 "gDEST"
        (.obj (some 3) (some "USD") (some "gDEST")) none)
      = validPaymentInput (fun s => s == "gDEST") "gDEST"
          (.obj (some 3) (some "USD") (some "gDEST")))
    ∧ (createNewPayment (fun s => s == "gDEST") [] 1 "gDEST"
        (.obj (some 3) (some "USD") (some "gDEST")) none
      = .ok (insertNewTransaction [] 1 "gDEST"
          (.obj (some 3) (some "USD") (some "gDEST")) none)) :=
  have h := createNewPayment_validation (fun s => s == "gDEST") [] 1 "gDEST"
    (.obj (some 3) (some "USD") (some "gDEST")) none
  ⟨h.1, h.2 (by decide)⟩

/-- C9 counterexample: a negative scalar amount is not positive, yet
`createNewPayment` accepts it and inserts the row — the claim's "positive
numeric scalar" requirement does not match the code, which only rejects a
falsy (zero) scalar. -/
theorem createNewPayment_accepts_negative_scalar :
    createNewPayment (fun s => s == "gDEST") [] 1 "gDEST" (.num (-5)) none
      = .ok [{ id := 1, state := .pending, destination := "gDEST",
               amount := .num (-5) }]
    ∧ ((-5 : Int) < 0) :=
  ⟨rfl, by decide⟩

end StellarPayments
